import Mathlib

/-!
Verification of the ticket-resolution pipeline of the
`agentic-customer-support` repository.

The Python source (backend/agents/*.py, backend/workflows/support_workflow.py,
backend/models/schemas.py, config/settings.py) is shallowly embedded below:

* Python `float` confidence/score arithmetic is modelled by `ℚ` (exact
  real-valued semantics of the arithmetic expressions in the source).
* Python strings are Lean `String`s; the string operations used by the code
  (`.lower()`, `in`, `.startswith`, `.endswith`, `.split`, `.strip`) are
  implemented character-list-structurally so that closed instances evaluate
  inside the kernel.  All text handled by the pipeline is ASCII, where these
  agree with CPython.
* `await`-ing an external collaborator (LLM advisory, search backend) is
  modelled by passing the outcome of the collaborator as an explicit
  `Except String _` argument: `.error e` stands for the collaborator raising
  an exception whose rendered text is `e`.
* A Python dict produced by `json.loads` is modelled by a structure of
  `Option`-valued fields; `dict.get(k, d)` becomes `Option.getD`.
-/

/-! ## Python string primitives (character-list implementations) -/

/-- Lower-casing, as CPython `str.lower` on ASCII text. -/
def strLower (s : String) : String := ⟨s.data.map Char.toLower⟩

/-- Prefix test: `isPrefixCh p l` is true iff the char list `p` begins `l`. -/
def isPrefixCh : List Char → List Char → Bool
  | [], _ => true
  | _ :: _, [] => false
  | a :: as, b :: bs => a == b && isPrefixCh as bs

/-- Occurrence test on char lists (needle first). -/
def containsCh : List Char → List Char → Bool
  | needle, [] => isPrefixCh needle []
  | needle, h :: t => isPrefixCh needle (h :: t) || containsCh needle t

/-- Python `pat in s` (substring occurrence). -/
def strContains (s pat : String) : Bool := containsCh pat.data s.data

/-- Python `s.startswith(p)`. -/
def strStartsWith (s p : String) : Bool := isPrefixCh p.data s.data

/-- Python `s.endswith(p)`. -/
def strEndsWith (s p : String) : Bool := isPrefixCh p.data.reverse s.data.reverse

/-- Fuel-driven splitter on a non-empty separator; the accumulator holds the
current piece reversed.  `fuel` bounds the number of consumed characters. -/
def splitOnFuel (sep : List Char) : Nat → List Char → List Char → List (List Char)
  | _, [], acc => [acc.reverse]
  | 0, s, acc => [acc.reverse ++ s]
  | fuel + 1, c :: rest, acc =>
    if isPrefixCh sep (c :: rest) then
      acc.reverse :: splitOnFuel sep fuel (List.drop (sep.length - 1) rest) []
    else
      splitOnFuel sep fuel rest (c :: acc)

/-- Python `s.split(sep)` for a non-empty separator `sep`. -/
def pySplit (s sep : String) : List String :=
  (splitOnFuel sep.data s.data.length s.data []).map fun l => ⟨l⟩

/-- Helper for `pySplitWs`: split on whitespace runs, discarding empties. -/
def splitWsAux : List Char → List Char → List (List Char)
  | [], acc => if acc.isEmpty then [] else [acc.reverse]
  | c :: rest, acc =>
    if c.isWhitespace then
      if acc.isEmpty then splitWsAux rest [] else acc.reverse :: splitWsAux rest []
    else
      splitWsAux rest (c :: acc)

/-- Python `s.split()` (no argument: whitespace runs, no empty pieces). -/
def pySplitWs (s : String) : List String := (splitWsAux s.data []).map fun l => ⟨l⟩

/-- Python `s.strip()`. -/
def pyStrip (s : String) : String :=
  ⟨((s.data.dropWhile Char.isWhitespace).reverse.dropWhile Char.isWhitespace).reverse⟩

/-- Python `a or b` on an optional string (`None` and `""` are falsy). -/
def pyOrStr (a : Option String) (b : String) : String :=
  match a with
  | none => b
  | some s => if s = "" then b else s

/-! ## Data model (backend/models/schemas.py) -/

/-- The `TicketCategory` enum. -/
inductive TicketCategory
  | technical
  | billing
  | general
  | product
  | account
deriving DecidableEq, Repr

/-- Value string of the str-enum `TicketCategory`. -/
def TicketCategory.value : TicketCategory → String
  | .technical => "technical"
  | .billing => "billing"
  | .general => "general"
  | .product => "product"
  | .account => "account"

/-- The `TicketPriority` enum. -/
inductive TicketPriority
  | low
  | medium
  | high
  | critical
deriving DecidableEq, Repr

/-- Value string of the str-enum `TicketPriority`. -/
def TicketPriority.value : TicketPriority → String
  | .low => "low"
  | .medium => "medium"
  | .high => "high"
  | .critical => "critical"

/-- Enum lookup by value for `TicketCategory`; `none` models the `ValueError`. -/
def TicketCategory.parse (s : String) : Option TicketCategory :=
  if s = "technical" then some .technical
  else if s = "billing" then some .billing
  else if s = "general" then some .general
  else if s = "product" then some .product
  else if s = "account" then some .account
  else none

/-- Enum lookup by value for `TicketPriority`; `none` models the `ValueError`. -/
def TicketPriority.parse (s : String) : Option TicketPriority :=
  if s = "low" then some .low
  else if s = "medium" then some .medium
  else if s = "high" then some .high
  else if s = "critical" then some .critical
  else none

/-- The `CustomerTicket` model restricted to the fields read by the pipeline core.  The unused
bookkeeping fields (`customer_id`, `customer_email`, timestamps, `status`)
are not consulted by any embedded function and are omitted. -/
structure CustomerTicket where
  id : Option String := none
  subject : String
  message : String
  customer_name : Option String := none
deriving DecidableEq, Repr

/-- The `ClassificationResult` model (its pydantic validator enforces
`0 ≤ confidence ≤ 1`; see `mkClassificationResult`). -/
structure ClassificationResult where
  category : TicketCategory
  priority : TicketPriority
  confidence : ℚ
  reasoning : String
deriving DecidableEq, Repr

/-- The `KnowledgeArticle` model, with the fields used by ranking and escalation. -/
structure KnowledgeArticle where
  id : String := ""
  title : String := ""
  content : String := ""
  category : TicketCategory
  resolution_count : Int := 0
  rating : Option ℚ := none
deriving DecidableEq, Repr

/-- The `SearchResult` model. -/
structure SearchResult where
  article : KnowledgeArticle
  score : ℚ
  relevance : String := ""
deriving DecidableEq, Repr

/-! ## Configuration (config/settings.py) -/

/-- The configured `settings.HIGH_PRIORITY_KEYWORDS`. -/
def HIGH_PRIORITY_KEYWORDS : List String :=
  ["urgent", "critical", "down", "broken", "error", "bug",
   "payment", "billing", "security", "hack", "breach"]

/-- The configured `settings.ESCALATION_KEYWORDS`. -/
def ESCALATION_KEYWORDS : List String :=
  ["manager", "supervisor", "complain", "angry", "frustrated",
   "legal", "lawsuit", "refund", "cancel", "unsubscribe"]

/-! ## Classifier agent (backend/agents/classifier_agent.py) -/

/-- The advisory dict returned by `llm_service.classify_ticket`
(`json.loads` output, so every field may be absent). -/
structure LLMClassification where
  category : Option String := none
  priority : Option String := none
  confidence : Option ℚ := none
  reasoning : Option String := none
deriving DecidableEq, Repr

/-- The plain dict threaded through `_apply_classification_rules`. -/
structure AdjustedClassification where
  category : String
  priority : String
  confidence : ℚ
  reasoning : String
deriving DecidableEq, Repr

/-- Lower-cased concatenation of subject, a space and message. -/
def fullText (t : CustomerTicket) : String :=
  strLower (t.subject ++ " " ++ t.message)

/-- Embeds `ClassifierAgent._priority_level`. -/
def priorityLevel (p : String) : Nat :=
  if strLower p = "low" then 1
  else if strLower p = "medium" then 2
  else if strLower p = "high" then 3
  else if strLower p = "critical" then 4
  else 2

/-- The initial reads `llm_result.get(...)` of `_apply_classification_rules`. -/
def classificationDefaults (d : LLMClassification) : AdjustedClassification :=
  { category := d.category.getD "general"
    priority := d.priority.getD "medium"
    confidence := d.confidence.getD 0.5
    reasoning := d.reasoning.getD "" }

/-- True when some high-priority keyword, lower-cased, occurs in the full text. -/
def highPriorityFound (t : CustomerTicket) : Bool :=
  HIGH_PRIORITY_KEYWORDS.any fun kw => strContains (fullText t) (strLower kw)

/-- The high-priority-keyword adjustment step of `_apply_classification_rules`. -/
def highPriorityStep (t : CustomerTicket) (a : AdjustedClassification) :
    AdjustedClassification :=
  if highPriorityFound t then
    if a.priority = "low" ∨ a.priority = "medium" then
      { a with priority := "high"
               confidence := min (a.confidence + 0.2) 1
               reasoning := a.reasoning ++ " (Elevated due to urgent keywords)" }
    else a
  else a

/-- The `category_priority_rules` table: trigger keywords and minimum priority. -/
def categoryPriorityRules (c : String) : Option (List String × String) :=
  if c = "billing" then some (["payment", "charge", "bill", "invoice"], "medium")
  else if c = "technical" then some (["bug", "error", "crash", "broken"], "medium")
  else none

/-- The category-specific priority adjustment step of
`_apply_classification_rules`. -/
def categoryStep (t : CustomerTicket) (a : AdjustedClassification) :
    AdjustedClassification :=
  match categoryPriorityRules a.category with
  | none => a
  | some (kws, minPriority) =>
    if (kws.any fun kw => strContains (fullText t) kw) &&
        decide (priorityLevel a.priority < priorityLevel minPriority) then
      { a with priority := minPriority
               reasoning := a.reasoning ++ " (Elevated for " ++ a.category ++ " category)" }
    else a

/-- The `security_keywords` list from `_apply_classification_rules`. -/
def securityKeywords : List String := ["hack", "breach", "security", "fraud", "phishing"]

/-- True when some security keyword occurs in the full text. -/
def securityKeywordFound (t : CustomerTicket) : Bool :=
  securityKeywords.any fun kw => strContains (fullText t) kw

/-- The final security/breach detection step of `_apply_classification_rules`. -/
def securityStep (t : CustomerTicket) (a : AdjustedClassification) :
    AdjustedClassification :=
  if securityKeywordFound t then
    { a with priority := "critical"
             category := "technical"
             confidence := min (a.confidence + 0.3) 1
             reasoning := a.reasoning ++ " (Security issue detected)" }
  else a

/-- Embeds `ClassifierAgent._apply_classification_rules`: defaults, then the
high-priority, category-specific and security steps in source order. -/
def applyClassificationRules (t : CustomerTicket) (d : LLMClassification) :
    AdjustedClassification :=
  securityStep t (categoryStep t (highPriorityStep t (classificationDefaults d)))

/-- Constructing `ClassificationResult(...)` from the adjusted dict: the enum
conversions and the pydantic confidence bounds can fail (`none` models the
raised `ValueError`/`ValidationError`). -/
def mkClassificationResult (a : AdjustedClassification) : Option ClassificationResult :=
  match TicketCategory.parse a.category, TicketPriority.parse a.priority with
  | some c, some p =>
    if 0 ≤ a.confidence ∧ a.confidence ≤ 1 then
      some { category := c, priority := p, confidence := a.confidence,
             reasoning := a.reasoning }
    else none
  | _, _ => none

/-- The `except` fallback of `ClassifierAgent.classify_ticket`. -/
def fallbackClassification (e : String) : ClassificationResult :=
  { category := .general, priority := .medium, confidence := 0.3,
    reasoning := "Classification failed: " ++ e }

/-- Embeds `ClassifierAgent.classify_ticket`.  Here `advisory` is the outcome of the
`llm_service.classify_ticket` call; `validationMsg` is the rendered text of
the exception CPython would raise if the adjusted result does not form a
valid `ClassificationResult`. -/
def classifyTicket (t : CustomerTicket) (advisory : Except String LLMClassification)
    (validationMsg : String) : ClassificationResult :=
  match advisory with
  | .error e => fallbackClassification e
  | .ok d =>
    match mkClassificationResult (applyClassificationRules t d) with
    | some c => c
    | none => fallbackClassification validationMsg

/-! ## Escalation agent (backend/agents/escalation_agent.py) -/

/-- The advisory dict returned by `llm_service.check_escalation`. -/
structure LLMEscalation where
  should_escalate : Option Bool := none
  reason : Option String := none
  escalation_type : Option String := none
  priority_level : Option String := none
  confidence : Option ℚ := none
deriving DecidableEq, Repr

/-- The dict built by `EscalationAgent._apply_escalation_rules` (every key is
always present). -/
structure RuleDecision where
  should_escalate : Bool
  reason : String
  escalation_type : String
  priority_level : String
  confidence : ℚ
deriving DecidableEq, Repr

/-- The dict built by `EscalationAgent._combine_decisions`. -/
structure CombinedDecision where
  should_escalate : Bool
  reason : String
  escalation_type : String
  priority_level : String
  confidence : ℚ
deriving DecidableEq, Repr

/-- The `security_legal_keywords` list of rule 3. -/
def securityLegalKeywords : List String :=
  ["legal", "lawsuit", "lawyer", "attorney", "court",
   "hack", "breach", "fraud", "scam", "theft"]

/-- The `billing_high_value_keywords` list of rule 5. -/
def billingHighValueKeywords : List String :=
  ["refund", "cancel", "subscription", "charge", "payment failed"]

/-- The `frustration_keywords` list of rule 6. -/
def frustrationKeywords : List String :=
  ["angry", "frustrated", "disappointed", "terrible", "worst",
   "unacceptable", "ridiculous", "pathetic", "hate"]

/-- The `retry_indicators` list of rule 7. -/
def retryIndicators : List String :=
  ["tried multiple times", "several attempts", "contacted before",
   "still not working", "again", "repeatedly"]

/-- The confidence ladder computed from the number of collected reasons. -/
def ruleConfidence (n : Nat) : ℚ :=
  if 2 < n then 0.9 else if n = 2 then 0.8 else if n = 1 then 0.7 else 0.5

/-- Embeds `EscalationAgent._apply_escalation_rules`: the seven escalation rules in
source order, mutating `should_escalate` / `escalation_type` /
`priority_level` and collecting reason strings. -/
def applyEscalationRules (t : CustomerTicket) (c : ClassificationResult)
    (searchResults : List SearchResult) : RuleDecision :=
  let ft := fullText t
  -- Rule 1: critical priority tickets
  let r1 := c.priority.value == "critical"
  -- Rule 2: escalation keywords present
  let r2 := ESCALATION_KEYWORDS.any fun kw => strContains ft (strLower kw)
  -- Rule 3: security/legal issues
  let r3 := securityLegalKeywords.any fun kw => strContains ft kw
  -- Rule 4: complex technical issues without good knowledge matches
  let noGoodMatch :=
    match searchResults with
    | [] => true
    | r :: _ => decide (r.score < 0.6)
  let r4 := c.category.value == "technical" &&
    (c.priority.value == "high" || c.priority.value == "critical") && noGoodMatch
  -- Rule 5: high-value billing issues
  let r5 := c.category.value == "billing" &&
    billingHighValueKeywords.any fun kw => strContains ft kw
  -- Rule 6: at least two frustration keywords
  let r6 := decide (2 ≤ (frustrationKeywords.filter fun kw => strContains ft kw).length)
  -- Rule 7: repeated-attempt phrases
  let r7 := retryIndicators.any fun kw => strContains ft kw
  let reasons : List String :=
    (if r1 then ["Critical priority ticket"] else []) ++
    (if r2 then ["Customer requesting escalation"] else []) ++
    (if r3 then ["Security or legal concern"] else []) ++
    (if r4 then ["Complex technical issue with no clear solution"] else []) ++
    (if r5 then ["High-impact billing issue"] else []) ++
    (if r6 then ["Customer showing high frustration"] else []) ++
    (if r7 then ["Multiple failed resolution attempts"] else [])
  let escalationType :=
    if r6 then "management"
    else if r5 then "billing"
    else if r4 then "technical"
    else if r3 then
      (if ["legal", "lawsuit", "lawyer"].any (fun kw => strContains ft kw)
       then "legal" else "security")
    else if r2 then "management"
    else if r1 then "technical"
    else "general"
  let priority_level := if r3 then "urgent" else if r1 then "urgent" else "standard"
  { should_escalate := r1 || r2 || r3 || r4 || r5 || r6 || r7
    reason := if reasons.isEmpty then "No escalation needed"
              else String.intercalate "; " reasons
    escalation_type := escalationType
    priority_level := priority_level
    confidence := ruleConfidence reasons.length }

/-- Priority-level ranking used by `_combine_decisions`: standard maps to 1,
urgent to 2, anything else to the default 1. -/
def escPriorityLevelRank (p : String) : Nat :=
  if p = "standard" then 1 else if p = "urgent" then 2 else 1

/-- Embeds `EscalationAgent._combine_decisions` applied to the advisory dict and the
rule-based dict. -/
def combineDecisions (llm : LLMEscalation) (rule : RuleDecision) : CombinedDecision :=
  -- if either system says escalate, we escalate
  let se := llm.should_escalate.getD false || rule.should_escalate
  -- combine reasons
  let llmReasonTruthy :=
    match llm.reason with
    | none => false
    | some s => s != ""
  let reasons :=
    (if llmReasonTruthy then ["AI: " ++ llm.reason.getD ""] else []) ++
    (if rule.reason != "" && rule.reason != "No escalation needed"
     then ["Rules: " ++ rule.reason] else [])
  -- choose escalation type: `rule or llm or "general"` with Python truthiness
  let escalationType :=
    if rule.escalation_type != "" then rule.escalation_type
    else
      match llm.escalation_type with
      | some s => if s != "" then s else "general"
      | none => "general"
  -- choose priority level (highest rank wins, tie keeps the rule side)
  let rulePriority := rule.priority_level
  let llmPriority := llm.priority_level.getD "standard"
  let priority_level :=
    if escPriorityLevelRank llmPriority ≤ escPriorityLevelRank rulePriority
    then rulePriority else llmPriority
  -- average the confidence scores
  let confidence := (rule.confidence + llm.confidence.getD 0.5) / 2
  { should_escalate := se
    reason := if reasons.isEmpty then "No escalation needed"
              else String.intercalate "; " reasons
    escalation_type := escalationType
    priority_level := priority_level
    confidence := confidence }

/-! ## Knowledge agent (backend/agents/knowledge_agent.py) -/

/-- The per-candidate score adjustment inside
`KnowledgeAgent._enhance_search_results`: category-match, popularity and
rating boosts applied to the raw score, in source order. -/
def adjustScore (classification : Option ClassificationResult) (r : SearchResult) : ℚ :=
  let categoryMatch :=
    match classification with
    | none => false
    | some c => r.article.category.value == c.category.value
  let s1 := if categoryMatch then r.score * 1.2 else r.score
  let s2 :=
    if 0 < r.article.resolution_count then
      s1 * (1 + min ((r.article.resolution_count : ℚ) / 100) 0.2)
    else s1
  match r.article.rating with
  | some rating => if 3 < rating then s2 * (1 + (rating - 3) * 0.1) else s2
  | none => s2

/-- Embeds `KnowledgeAgent._calculate_enhanced_relevance` (fed the uncapped
adjusted score, exactly as in the source). -/
def calculateEnhancedRelevance (score : ℚ) : String :=
  if 0.9 ≤ score then "Excellent"
  else if 0.75 ≤ score then "Very High"
  else if 0.6 ≤ score then "High"
  else if 0.45 ≤ score then "Medium"
  else if 0.3 ≤ score then "Low"
  else "Very Low"

/-- Descending order on enhanced scores, `sort(key=lambda x: x.score,
reverse=True)`. -/
def scoreGE (a b : SearchResult) : Prop := b.score ≤ a.score

instance : DecidableRel scoreGE := fun a b => inferInstanceAs (Decidable (b.score ≤ a.score))

instance : IsTotal SearchResult scoreGE := ⟨fun a b => le_total b.score a.score⟩

instance : IsTrans SearchResult scoreGE := ⟨fun _ _ _ h h2 => le_trans h2 h⟩

/-- Embeds `KnowledgeAgent._enhance_search_results`: re-score every candidate, cap
the stored score at 1.0, and stable-sort descending by adjusted score
(CPython `list.sort` is a stable sort; `List.insertionSort` with the total
preorder `scoreGE` computes the same stable descending ordering). -/
def enhanceSearchResults (results : List SearchResult)
    (classification : Option ClassificationResult) : List SearchResult :=
  let enhanced := results.map fun r =>
    let adjusted := adjustScore classification r
    { article := r.article
      score := min adjusted 1
      relevance := calculateEnhancedRelevance adjusted : SearchResult }
  List.insertionSort scoreGE enhanced

/-! ## Resolution agent (backend/agents/resolution_agent.py) -/

/-- The `category_confidence` table of `_calculate_resolution_confidence`
(looked up with default 0.6). -/
def categoryConfidence (c : String) : ℚ :=
  if c = "general" then 0.8
  else if c = "product" then 0.7
  else if c = "account" then 0.75
  else if c = "billing" then 0.6
  else if c = "technical" then 0.5
  else 0.6

/-- Embeds `ResolutionAgent._calculate_resolution_confidence`: the four weighted
confidence factors are collected in a list, summed and clamped. -/
def calculateResolutionConfidence (classification : ClassificationResult)
    (searchResults : List SearchResult) (responseLength : Nat) : ℚ :=
  let factor1 := classification.confidence * 0.3
  let factor2 :=
    if searchResults.isEmpty then 0.1
    else ((searchResults.map fun r => r.score).sum / searchResults.length) * 0.4
  let completeness :=
    if 200 < responseLength then min ((responseLength : ℚ) / 500) 1 else 0.3
  let factor3 := completeness * 0.2
  let factor4 := categoryConfidence classification.category.value * 0.1
  let finalConfidence := [factor1, factor2, factor3, factor4].sum
  min (max finalConfidence 0.1) 0.95

/-- The `closing_phrases` list from `_post_process_response`. -/
def closingPhrases : List String :=
  ["thank you", "please let me know", "feel free to",
   "if you have", "best regards", "sincerely"]

/-- The email header built by `_post_process_response` (and its siblings):
`none` models the `IndexError` CPython raises when a truthy customer name
consists only of whitespace (`customer_name.split()[0]` on an empty list). -/
def emailHeader (t : CustomerTicket) : Option String :=
  match t.customer_name with
  | some name =>
    if name ≠ "" then
      match pySplitWs name with
      | [] => none
      | firstName :: _ =>
        some ("Subject: Re: " ++ t.subject ++ "\n\nDear " ++ firstName ++ ",")
    else some ("Subject: Re: " ++ t.subject ++ "\n\nDear Valued Customer,")
  | none => some ("Subject: Re: " ++ t.subject ++ "\n\nDear Valued Customer,")

/-- The sentence-boundary trimming loop of `_post_process_response`
(`for sentence in sentences: ... else break`), with
`self.max_response_length = 1000`. -/
def trimSentences : List String → String → String
  | [], trimmed => trimmed
  | sentence :: rest, trimmed =>
    if (trimmed ++ sentence).data.length < 1000 - 3 then
      trimSentences rest (trimmed ++ sentence ++ ". ")
    else trimmed

/-- Embeds `ResolutionAgent._post_process_response`.  Here `ts` is the
`datetime.now().strftime(...)` timestamp CPython would interpolate into a
generated ticket reference when the ticket has no truthy id; the result is
`none` exactly when the header construction raises (whitespace-only
customer name). -/
def postProcessResponse (ts : String) (t : CustomerTicket)
    (c : ClassificationResult) (response : String) : Option String :=
  match emailHeader t with
  | none => none
  | some header =>
    -- add email header if no greeting structure is present
    let r1 :=
      if !(strStartsWith (strLower response) "dear" ||
           strStartsWith (strLower response) "hello" ||
           strStartsWith (strLower response) "hi" ||
           strStartsWith (strLower response) "subject:") then
        header ++ "\n\nThank you for contacting us. " ++ response
      else response
    -- ensure proper closing
    let hasClosing := closingPhrases.any fun p => strContains (strLower r1) p
    let r2 :=
      if !hasClosing then
        r1 ++ "\n\nPlease let me know if you need any additional assistance!"
      else r1
    -- add professional email signature
    let r3 :=
      if !(strEndsWith r2 "Best regards" || strEndsWith r2 "Sincerely" ||
           strEndsWith r2 "Thank you") then
        r2 ++ "\n\nBest regards,\nCustomer Support Team"
      else r2
    -- add ticket reference if urgent
    let r4 :=
      if c.priority.value = "high" ∨ c.priority.value = "critical" then
        let ticketRef := pyOrStr t.id ("TKT-" ++ ts)
        if !(strContains r3 ticketRef) then
          r3 ++ "\n\nTicket Reference: " ++ ticketRef
        else r3
      else r3
    -- limit response length (trim at a sentence boundary)
    let r5 :=
      if 1000 < r4.data.length then
        let sentences := pySplit r4 ". "
        let trimmed := pyStrip (trimSentences sentences "")
        if !(strEndsWith trimmed ".") then trimmed ++ "..." else trimmed
      else r4
    some (pyStrip r5)

/-! ## Workflow orchestrator (backend/workflows/support_workflow.py)

Each LangGraph node wraps its body in a try/except; the outcome of the body
(everything computed inside the `try` before the state writes) is passed in
as an `Except String _` value, `.error e` standing for an exception with
rendered text `e`.  The serialisable dicts stored in the state are modelled
by structures; the purely diagnostic sub-dicts (`insights`,
`search_summary`, `routing`, timestamps inside payloads) are not read by
any later stage or by any property below and are not tracked. -/

/-- The `state["classification"]` dict. -/
structure WfClassification where
  category : String
  priority : String
  confidence : ℚ
  reasoning : String
deriving DecidableEq, Repr

/-- An entry of the `state["knowledge_results"]` list. -/
structure WfKnowledgeItem where
  article_id : String
  title : String
  content : String
  category : String
  score : ℚ
  relevance : String
deriving DecidableEq, Repr

/-- The `state["escalation_decision"]` dict. -/
structure WfEscalationDecision where
  should_escalate : Bool
  reason : String
  escalation_type : Option String
  priority_level : String
  confidence : ℚ
deriving DecidableEq, Repr

/-- The `state["resolution"]` dict (`ticket_id`, `knowledge_articles_used`
and `created_at` are absent from some fallback dicts, hence optional). -/
structure WfResolution where
  ticket_id : Option String := none
  response : String
  confidence : ℚ
  knowledge_articles_used : Option (List String) := none
  agent_type : String
  created_at : Option String := none
deriving DecidableEq, Repr

/-- The `SupportWorkflowState` dict with the metadata entries finalize writes. -/
structure WfState where
  ticket : CustomerTicket
  classification : Option WfClassification := none
  knowledge_results : List WfKnowledgeItem := []
  escalation_decision : Option WfEscalationDecision := none
  resolution : Option WfResolution := none
  workflow_status : String
  error_messages : List String := []
  metadata_started_at : Option String := none
  metadata_completed_at : Option String := none
  metadata_total_errors : Option Nat := none
deriving DecidableEq, Repr

/-- The outcomes of the five node bodies for one run (what the try block of
each node would produce if it does not raise). -/
structure StageOutcomes where
  classifyBody : Except String WfClassification
  searchBody : Except String (List WfKnowledgeItem)
  escalationBody : Except String WfEscalationDecision
  resolutionBody : Except String WfResolution
  escalateBody : Except String WfResolution
deriving Repr

/-- Embeds `CustomerSupportWorkflow._classify_node`. -/
def classifyNode (body : Except String WfClassification) (s : WfState) : WfState :=
  match body with
  | .ok c => { s with classification := some c, workflow_status := "classified" }
  | .error e =>
    let msg := "Classification failed: " ++ e
    { s with
      error_messages := s.error_messages ++ [msg]
      classification := some { category := "general", priority := "medium",
                               confidence := 0.3, reasoning := msg } }

/-- Embeds `CustomerSupportWorkflow._search_knowledge_node`. -/
def searchKnowledgeNode (body : Except String (List WfKnowledgeItem))
    (s : WfState) : WfState :=
  match body with
  | .ok results =>
    { s with knowledge_results := results, workflow_status := "knowledge_searched" }
  | .error e =>
    { s with
      error_messages := s.error_messages ++ ["Knowledge search failed: " ++ e]
      knowledge_results := [] }

/-- Embeds `CustomerSupportWorkflow._check_escalation_node`. -/
def checkEscalationNode (body : Except String WfEscalationDecision)
    (s : WfState) : WfState :=
  match body with
  | .ok d =>
    { s with escalation_decision := some d, workflow_status := "escalation_checked" }
  | .error e =>
    let msg := "Escalation check failed: " ++ e
    { s with
      error_messages := s.error_messages ++ [msg]
      -- default to escalation for safety
      escalation_decision := some { should_escalate := true, reason := msg,
                                    escalation_type := some "technical",
                                    priority_level := "standard",
                                    confidence := 0.3 } }

/-- Embeds `CustomerSupportWorkflow._generate_resolution_node`. -/
def generateResolutionNode (body : Except String WfResolution) (s : WfState) : WfState :=
  match body with
  | .ok r => { s with resolution := some r, workflow_status := "resolved" }
  | .error e =>
    { s with
      error_messages := s.error_messages ++ ["Resolution generation failed: " ++ e]
      resolution := some
        { ticket_id := some (pyOrStr s.ticket.id "unknown")
          response := "I apologize, but I\x27m experiencing technical difficulties. A human agent will assist you shortly."
          confidence := 0.1
          knowledge_articles_used := some []
          agent_type := "fallback" } }

/-- Embeds `CustomerSupportWorkflow._escalate_ticket_node`. -/
def escalateTicketNode (body : Except String WfResolution) (s : WfState) : WfState :=
  match body with
  | .ok r => { s with resolution := some r, workflow_status := "escalated" }
  | .error e =>
    { s with
      error_messages := s.error_messages ++ ["Escalation failed: " ++ e]
      resolution := some
        { ticket_id := some (pyOrStr s.ticket.id "unknown")
          response := "Your request has been escalated to our specialist team. Someone will contact you shortly."
          confidence := 0.8
          knowledge_articles_used := some []
          agent_type := "escalation_fallback" } }

/-- Embeds `CustomerSupportWorkflow._finalize_node`. -/
def finalizeNode (s : WfState) : WfState :=
  { s with
    workflow_status := "completed"
    metadata_completed_at := some "2024-01-01T00:00:00"
    metadata_total_errors := some s.error_messages.length }

/-- Embeds `CustomerSupportWorkflow._should_escalate`
(`state.get("escalation_decision", {}).get("should_escalate", False)`). -/
def shouldEscalateBranch (s : WfState) : Bool :=
  match s.escalation_decision with
  | some d => d.should_escalate
  | none => false

/-- The initial state built by `process_ticket`. -/
def initialWfState (t : CustomerTicket) : WfState :=
  { ticket := t
    workflow_status := "started"
    metadata_started_at := some "2024-01-01T00:00:00" }

/-- Embeds `CustomerSupportWorkflow.process_ticket`: the compiled graph
classify → search_knowledge → check_escalation → (escalate_ticket |
generate_resolution) → finalize. -/
def processTicket (t : CustomerTicket) (o : StageOutcomes) : WfState :=
  let s1 := classifyNode o.classifyBody (initialWfState t)
  let s2 := searchKnowledgeNode o.searchBody s1
  let s3 := checkEscalationNode o.escalationBody s2
  let s4 :=
    if shouldEscalateBranch s3 then escalateTicketNode o.escalateBody s3
    else generateResolutionNode o.resolutionBody s3
  finalizeNode s4

/-- The substitute result `process_batch` builds when a gathered run
surfaced an exception. -/
def batchErrorState (t : CustomerTicket) (e : String) : WfState :=
  { ticket := t
    workflow_status := "failed"
    error_messages := [e]
    resolution := some { response := "Processing failed due to technical error."
                         confidence := 0.1
                         agent_type := "batch_error" } }

/-- Embeds `CustomerSupportWorkflow.process_batch`: `asyncio.gather` with
`return_exceptions=True` yields one outcome per ticket in input order
(`runs`); each exception outcome is replaced by `batchErrorState` for the
ticket at the same index. -/
def processBatch (tickets : List CustomerTicket)
    (runs : List (Except String WfState)) : List WfState :=
  (tickets.zip runs).map fun p =>
    match p.2 with
    | .error e => batchErrorState p.1 e
    | .ok s => s

/-! ## Theorems -/

/-- C2: whenever one of the security/fraud keywords occurs in the lower-cased
subject+message, the rule-adjusted classification has category `technical`,
priority `critical`, and confidence `min (previous + 0.3) 1` where `previous`
is the confidence produced by the earlier high-priority and category rules —
for every advisory input, i.e. the security rule is evaluated last and always
wins. -/
theorem security_rule_always_wins (t : CustomerTicket) (d : LLMClassification)
    (h : securityKeywordFound t = true) :
    (applyClassificationRules t d).category = "technical" ∧
    (applyClassificationRules t d).priority = "critical" ∧
    (applyClassificationRules t d).confidence =
      min ((categoryStep t (highPriorityStep t (classificationDefaults d))).confidence
        + 0.3) 1 := by
  unfold applyClassificationRules securityStep
  simp [h]

/-- Witness for `security_rule_always_wins`: subject "breach", advisory
category "billing" with priority "low". -/
theorem security_rule_always_wins_witness :
    securityKeywordFound { subject := "breach", message := "please help" } = true ∧
    ((applyClassificationRules { subject := "breach", message := "please help" }
        { category := some "billing", priority := some "low",
          confidence := some 0.2 }).category = "technical" ∧
      (applyClassificationRules { subject := "breach", message := "please help" }
        { category := some "billing", priority := some "low",
          confidence := some 0.2 }).priority = "critical" ∧
      (applyClassificationRules { subject := "breach", message := "please help" }
        { category := some "billing", priority := some "low",
          confidence := some 0.2 }).confidence =
        min ((categoryStep { subject := "breach", message := "please help" }
          (highPriorityStep { subject := "breach", message := "please help" }
            (classificationDefaults
              { category := some "billing", priority := some "low",
                confidence := some 0.2 }))).confidence + 0.3) 1) :=
  ⟨by decide, security_rule_always_wins _ _ (by decide)⟩

/-- C9: `classify_ticket` never raises — if the advisory call fails, or the
adjusted result cannot be turned into a valid `ClassificationResult`, it
returns exactly category `general`, priority `medium`, confidence 0.3, with
the failure text recorded in the reasoning. -/
theorem classify_ticket_fallback (t : CustomerTicket)
    (advisory : Except String LLMClassification) (validationMsg : String) :
    (∀ e, advisory = .error e →
      classifyTicket t advisory validationMsg =
        { category := .general, priority := .medium, confidence := 0.3,
          reasoning := "Classification failed: " ++ e }) ∧
    (∀ d, advisory = .ok d →
      mkClassificationResult (applyClassificationRules t d) = none →
      classifyTicket t advisory validationMsg =
        { category := .general, priority := .medium, confidence := 0.3,
          reasoning := "Classification failed: " ++ validationMsg }) := by
  constructor
  · rintro e rfl
    rfl
  · rintro d rfl h
    simp [classifyTicket, h, fallbackClassification]

/-- Witness for `classify_ticket_fallback`: a failing advisory call, and an
advisory whose category string is not a valid enum value. -/
theorem classify_ticket_fallback_witness :
    classifyTicket { subject := "s", message := "m" } (.error "boom") "v" =
      { category := .general, priority := .medium, confidence := 0.3,
        reasoning := "Classification failed: boom" } ∧
    classifyTicket { subject := "s", message := "m" }
        (.ok { category := some "spam" }) "invalid category" =
      { category := .general, priority := .medium, confidence := 0.3,
        reasoning := "Classification failed: invalid category" } :=
  ⟨(classify_ticket_fallback { subject := "s", message := "m" } (.error "boom") "v").1
      "boom" rfl,
   (classify_ticket_fallback { subject := "s", message := "m" }
      (.ok { category := some "spam" }) "invalid category").2
      { category := some "spam" } rfl (by decide)⟩

/-- The rule-strength confidence ladder only produces values in [0.5, 0.9]. -/
theorem ruleConfidence_bounds (n : Nat) :
    0.5 ≤ ruleConfidence n ∧ ruleConfidence n ≤ 0.9 := by
  unfold ruleConfidence
  split_ifs <;> norm_num

/-- The confidence emitted by the rule engine is always a value of the ladder. -/
theorem applyEscalationRules_confidence_shape (t : CustomerTicket)
    (c : ClassificationResult) (rs : List SearchResult) :
    ∃ n, (applyEscalationRules t c rs).confidence = ruleConfidence n :=
  ⟨_, rfl⟩

/-- The rule engine always emits a non-empty escalation type (it starts from
"general" and every overwrite is one of the fixed non-empty type names). -/
theorem applyEscalationRules_type_nonempty (t : CustomerTicket)
    (c : ClassificationResult) (rs : List SearchResult) :
    (applyEscalationRules t c rs).escalation_type ≠ "" := by
  simp only [applyEscalationRules]
  split_ifs <;> simp

/-- If no escalation rule fired, the escalation type of the rule engine is the
initial "general". -/
theorem applyEscalationRules_no_fire (t : CustomerTicket)
    (c : ClassificationResult) (rs : List SearchResult)
    (h : (applyEscalationRules t c rs).should_escalate = false) :
    (applyEscalationRules t c rs).escalation_type = "general" := by
  simp only [applyEscalationRules, Bool.or_eq_false_iff] at h ⊢
  obtain ⟨⟨⟨⟨⟨⟨h1, h2⟩, h3⟩, h4⟩, h5⟩, h6⟩, h7⟩ := h
  simp only [h1, h2, h3, h4, h5, h6]
  simp
  intro hcat hpri
  simp [hcat, hpri] at h4
  exact h4

/-- C4: the combined decision escalates iff the advisory or the rule engine
escalates (logical OR with advisory default `False`); in particular an
advisory-driven escalation can never be overridden back by the rules. -/
theorem combined_escalation_or (llm : LLMEscalation) (rule : RuleDecision) :
    (combineDecisions llm rule).should_escalate =
      (llm.should_escalate.getD false || rule.should_escalate) ∧
    (llm.should_escalate = some true →
      (combineDecisions llm rule).should_escalate = true) := by
  refine ⟨rfl, fun h => ?_⟩
  simp [combineDecisions, h]

/-- Witness for `combined_escalation_or`: the advisory escalates while no
rule fired, and the combination still escalates. -/
theorem combined_escalation_or_witness :
    (combineDecisions { should_escalate := some true }
      { should_escalate := false, reason := "No escalation needed",
        escalation_type := "general", priority_level := "standard",
        confidence := 0.5 }).should_escalate = true :=
  (combined_escalation_or { should_escalate := some true }
    { should_escalate := false, reason := "No escalation needed",
      escalation_type := "general", priority_level := "standard",
      confidence := 0.5 }).2 rfl

/-- C7: the combined confidence is the arithmetic mean of the advisory
confidence (default 0.5 when absent) and the confidence of the rule engine, and,
the advisory confidence being in [0,1] — the mean always lies in [0,1]. -/
theorem combined_confidence_mean (t : CustomerTicket) (c : ClassificationResult)
    (rs : List SearchResult) (llm : LLMEscalation) :
    (combineDecisions llm (applyEscalationRules t c rs)).confidence =
      ((applyEscalationRules t c rs).confidence + llm.confidence.getD 0.5) / 2 ∧
    (0 ≤ llm.confidence.getD 0.5 → llm.confidence.getD 0.5 ≤ 1 →
      0 ≤ (combineDecisions llm (applyEscalationRules t c rs)).confidence ∧
      (combineDecisions llm (applyEscalationRules t c rs)).confidence ≤ 1) := by
  have hc : (combineDecisions llm (applyEscalationRules t c rs)).confidence =
      ((applyEscalationRules t c rs).confidence + llm.confidence.getD 0.5) / 2 := rfl
  refine ⟨hc, fun h0 h1 => ?_⟩
  obtain ⟨n, hn⟩ := applyEscalationRules_confidence_shape t c rs
  have hb := ruleConfidence_bounds n
  rw [hc, hn]
  constructor <;> linarith [hb.1, hb.2]

/-- Witness for `combined_confidence_mean`: an advisory with confidence 0.8
against a quiet ticket. -/
theorem combined_confidence_mean_witness :
    (combineDecisions { confidence := some 0.8 }
        (applyEscalationRules { subject := "hello", message := "how do I use this" }
          { category := .general, priority := .low, confidence := 0.5,
            reasoning := "" } [])).confidence =
      ((applyEscalationRules { subject := "hello", message := "how do I use this" }
          { category := .general, priority := .low, confidence := 0.5,
            reasoning := "" } []).confidence + 0.8) / 2 ∧
    (0 ≤ (combineDecisions { confidence := some 0.8 }
        (applyEscalationRules { subject := "hello", message := "how do I use this" }
          { category := .general, priority := .low, confidence := 0.5,
            reasoning := "" } [])).confidence ∧
      (combineDecisions { confidence := some 0.8 }
        (applyEscalationRules { subject := "hello", message := "how do I use this" }
          { category := .general, priority := .low, confidence := 0.5,
            reasoning := "" } [])).confidence ≤ 1) := by
  have h := combined_confidence_mean
    { subject := "hello", message := "how do I use this" }
    { category := .general, priority := .low, confidence := 0.5, reasoning := "" }
    [] { confidence := some 0.8 }
  exact ⟨h.1, h.2 (by norm_num) (by norm_num)⟩

/-- C10: the escalation type named by the advisory never influences the combined
decision — two advisories that differ only in `escalation_type` combine with
the output of the rule engine to identical decisions, because the rule engine
always supplies a non-empty (truthy) type that the combination prefers; and
when no rule fired, the final type is the rule-engine default "general". -/
theorem escalation_type_noninterference (t : CustomerTicket)
    (c : ClassificationResult) (rs : List SearchResult)
    (llm1 llm2 : LLMEscalation)
    (h1 : llm1.should_escalate = llm2.should_escalate)
    (h2 : llm1.reason = llm2.reason)
    (h3 : llm1.priority_level = llm2.priority_level)
    (h4 : llm1.confidence = llm2.confidence) :
    combineDecisions llm1 (applyEscalationRules t c rs) =
      combineDecisions llm2 (applyEscalationRules t c rs) ∧
    ((applyEscalationRules t c rs).should_escalate = false →
      (combineDecisions llm1 (applyEscalationRules t c rs)).escalation_type =
        "general") := by
  have hne : ((applyEscalationRules t c rs).escalation_type != "") = true := by
    simpa using applyEscalationRules_type_nonempty t c rs
  constructor
  · simp only [combineDecisions, h1, h2, h3, h4, hne, if_true]
  · intro hse
    have hgen := applyEscalationRules_no_fire t c rs hse
    simp only [combineDecisions, hne, if_true]
    exact hgen

/-- Witness for `escalation_type_noninterference`: advisories naming
`billing` and naming nothing combine identically over a quiet ticket, and
the resulting type is "general". -/
theorem escalation_type_noninterference_witness :
    combineDecisions { escalation_type := some "billing" }
        (applyEscalationRules { subject := "hello", message := "a quick question" }
          { category := .general, priority := .low, confidence := 0.5,
            reasoning := "" } []) =
      combineDecisions { escalation_type := none }
        (applyEscalationRules { subject := "hello", message := "a quick question" }
          { category := .general, priority := .low, confidence := 0.5,
            reasoning := "" } []) ∧
    (combineDecisions { escalation_type := some "billing" }
        (applyEscalationRules { subject := "hello", message := "a quick question" }
          { category := .general, priority := .low, confidence := 0.5,
            reasoning := "" } [])).escalation_type = "general" := by
  have h := escalation_type_noninterference
    { subject := "hello", message := "a quick question" }
    { category := .general, priority := .low, confidence := 0.5, reasoning := "" }
    [] { escalation_type := some "billing" } { escalation_type := none }
    rfl rfl rfl rfl
  exact ⟨h.1, h.2 (by decide)⟩

/-- C3: the AI-path resolution confidence equals the weighted sum
0.3·classification + 0.4·mean-candidate-score (0.1 when there are no
candidates) + 0.2·completeness + 0.1·category-base-rate, clamped to
[0.1, 0.95]; in particular it lies in [0.1, 0.95] for every input. -/
theorem resolution_confidence_formula (c : ClassificationResult)
    (rs : List SearchResult) (n : Nat) :
    calculateResolutionConfidence c rs n =
      min (max (0.3 * c.confidence +
          (if rs = [] then 0.1
           else 0.4 * ((rs.map fun r => r.score).sum / rs.length)) +
          0.2 * (if 200 < n then min ((n : ℚ) / 500) 1 else 0.3) +
          0.1 * (match c.category with
                 | .general => 0.8
                 | .product => 0.7
                 | .account => 0.75
                 | .billing => 0.6
                 | .technical => 0.5)) 0.1) 0.95 ∧
    0.1 ≤ calculateResolutionConfidence c rs n ∧
    calculateResolutionConfidence c rs n ≤ 0.95 := by
  refine ⟨?_, le_min (le_max_right _ _) (by norm_num), min_le_right _ _⟩
  obtain ⟨cat, pri, conf, reas⟩ := c
  cases cat <;> rcases rs with _ | ⟨r, rs⟩ <;>
    simp [calculateResolutionConfidence, categoryConfidence, TicketCategory.value] <;>
    ring_nf

/-- Comparing two categories by value string agrees with enum comparison. -/
theorem TicketCategory.value_beq (a b : TicketCategory) :
    (a.value == b.value) = (a == b) := by
  cases a <;> cases b <;> decide

/-- The classification used in the concrete ranking comparison of C8. -/
def cRank : ClassificationResult :=
  { category := .technical, priority := .medium, confidence := 0.9, reasoning := "" }

/-- C8 comparison candidate: matching category, popularity 200, rating 5.0,
raw score 0.5. -/
def candA : SearchResult :=
  { article := { id := "a", category := .technical, resolution_count := 200,
                 rating := some 5 }
    score := 0.5 }

/-- C8 comparison candidate: non-matching category, popularity 0, no rating,
raw score 0.5. -/
def candB : SearchResult :=
  { article := { id := "b", category := .billing }, score := 0.5 }

/-- C8: the re-scored relevance multiplies the raw score by 1.2 on category
match, by 1 + min(popularity/100, 0.2) for positive popularity and by
1 + (rating−3)·0.1 for a rating above 3.0; stored scores are capped at 1 and
the output is sorted descending by adjusted score; and the boosted candidate
`candA` scores strictly higher than the unboosted `candB`. -/
theorem knowledge_ranking_enhancement :
    (∀ (c : ClassificationResult) (r : SearchResult),
      adjustScore (some c) r =
        r.score * (if r.article.category = c.category then 1.2 else 1) *
          (if 0 < r.article.resolution_count then
            1 + min ((r.article.resolution_count : ℚ) / 100) 0.2 else 1) *
          (match r.article.rating with
           | some rating => if 3 < rating then 1 + (rating - 3) * 0.1 else 1
           | none => 1)) ∧
    (∀ (cls : Option ClassificationResult) (results : List SearchResult)
        (x : SearchResult), x ∈ enhanceSearchResults results cls →
      ∃ r ∈ results,
        x = { article := r.article, score := min (adjustScore cls r) 1,
              relevance := calculateEnhancedRelevance (adjustScore cls r) }) ∧
    (∀ (cls : Option ClassificationResult) (results : List SearchResult),
      (enhanceSearchResults results cls).Sorted scoreGE) ∧
    min (adjustScore (some cRank) candA) 1 > min (adjustScore (some cRank) candB) 1 := by
  refine ⟨fun c r => ?_, fun cls results x hx => ?_, fun cls results => ?_, ?_⟩
  · simp only [adjustScore, TicketCategory.value_beq, beq_iff_eq]
    rcases hr : r.article.rating with _ | rating
    · simp only [hr]
      split_ifs <;> ring
    · simp only [hr]
      split_ifs <;> ring
  · unfold enhanceSearchResults at hx
    have hx2 := (List.perm_insertionSort scoreGE _).mem_iff.mp hx
    obtain ⟨r, hr, hrx⟩ := List.mem_map.mp hx2
    exact ⟨r, hr, hrx.symm⟩
  · unfold enhanceSearchResults
    exact List.sorted_insertionSort scoreGE _
  · have hbt : ¬(("billing" : String) = "technical") := by decide
    norm_num [adjustScore, cRank, candA, candB, TicketCategory.value, min_def, hbt]

/-- Witness for `knowledge_ranking_enhancement`: the enhanced entry produced
from `candB` is traced back to `candB` itself. -/
theorem knowledge_ranking_enhancement_witness :
    ∃ r ∈ [candB],
      ({ article := candB.article, score := min (adjustScore (some cRank) candB) 1,
         relevance := calculateEnhancedRelevance (adjustScore (some cRank) candB) }
        : SearchResult) =
      { article := r.article, score := min (adjustScore (some cRank) r) 1,
        relevance := calculateEnhancedRelevance (adjustScore (some cRank) r) } :=
  knowledge_ranking_enhancement.2.1 (some cRank) [candB] _
    (by simp [enhanceSearchResults, List.insertionSort, List.orderedInsert])

/-- The signature block appended by `_post_process_response`. -/
def sigBlock : String := "\n\nBest regards,\nCustomer Support Team"

/-- Ticket used in the C5 idempotence analysis. -/
def tC5 : CustomerTicket := { id := some "T1", subject := "Hi", message := "" }

/-- Classification used in the C5 idempotence analysis. -/
def cC5 : ClassificationResult :=
  { category := .general, priority := .low, confidence := 0.5, reasoning := "" }

/-- The once-processed response of the C5 counterexample. -/
def pOnce : String := "Dear Bob, thank you.\n\nBest regards,\nCustomer Support Team"

/-- C5 counterexample: the post-processor is not idempotent.  On the response
"Dear Bob, thank you." the first pass appends the signature block; the second
pass appends it again, because the signature-presence check looks for the
suffixes "Best regards"/"Sincerely"/"Thank you" while the appended signature
ends with "Customer Support Team".  So the twice-processed response differs
from the once-processed one. -/
theorem post_process_not_idempotent :
    postProcessResponse "20240101000000" tC5 cC5 "Dear Bob, thank you." = some pOnce ∧
    postProcessResponse "20240101000000" tC5 cC5 pOnce =
      some (pOnce ++ "\n\nBest regards,\nCustomer Support Team") ∧
    pOnce ++ "\n\nBest regards,\nCustomer Support Team" ≠ pOnce := by
  refine ⟨by decide, by decide, by decide⟩

/-- C5 (amended): a second application of the post-processor adds no second
greeting header, no second closing offer, and no second ticket reference —
when the once-processed text starts with a greeting marker, contains a
closing phrase and already carries the ticket reference — but it appends a
duplicate signature block whenever the text does not end with
"Best regards", "Sincerely" or "Thank you" (which holds whenever the first
pass appended its own signature, since that ends with "Customer Support
Team"): the second pass returns exactly the input plus one more signature
block. -/
theorem post_process_second_pass (ts : String) (t : CustomerTicket)
    (c : ClassificationResult) (p : String) (h : String)
    (hhead : emailHeader t = some h)
    (hstart : (strStartsWith (strLower p) "dear" || strStartsWith (strLower p) "hello" ||
               strStartsWith (strLower p) "hi" || strStartsWith (strLower p) "subject:") = true)
    (hclose : (closingPhrases.any fun q => strContains (strLower p) q) = true)
    (hsig : (strEndsWith p "Best regards" || strEndsWith p "Sincerely" ||
             strEndsWith p "Thank you") = false)
    (href : c.priority.value = "high" ∨ c.priority.value = "critical" →
      strContains (p ++ sigBlock) (pyOrStr t.id ("TKT-" ++ ts)) = true)
    (hlen : (p ++ sigBlock).data.length ≤ 1000)
    (hstrip : pyStrip (p ++ sigBlock) = p ++ sigBlock) :
    postProcessResponse ts t c p = some (p ++ sigBlock) := by
  unfold postProcessResponse
  rw [hhead]
  have hc : ¬ 1000 < p.length + 37 := by
    have h37 : (p ++ sigBlock).data.length = p.length + 37 := by simp [sigBlock]
    omega
  by_cases hp : c.priority.value = "high" ∨ c.priority.value = "critical"
  · simp only [sigBlock] at href hstrip ⊢
    simp [hstart, hclose, hsig, href hp, hp]
    rw [if_neg hc]
    exact hstrip
  · simp only [sigBlock] at hstrip ⊢
    simp [hstart, hclose, hsig, hp]
    rw [if_neg hc]
    exact hstrip

/-- Witness for `post_process_second_pass`: the once-processed counterexample
response satisfies every branch condition, and re-processing appends one more
signature block. -/
theorem post_process_second_pass_witness :
    postProcessResponse "x" tC5 cC5 pOnce = some (pOnce ++ sigBlock) :=
  post_process_second_pass "x" tC5 cC5 pOnce
    "Subject: Re: Hi\n\nDear Valued Customer," (by decide) (by decide) (by decide)
    (by decide) (by decide) (by decide) (by decide)

/-- C1: every stage of the orchestrator runs in its own failure boundary.
For every ticket and every combination of stage-body outcomes: the run always
reaches finalize, which sets `workflow_status = "completed"` and records the
error count; a failing classify body is replaced by the general/medium/0.3
default; a failing search body by the empty knowledge list; a failing
escalation body by the forced technical/standard/0.3 escalation; a failing
resolution body by the apology fallback; a failing escalate body by the
escalation fallback (also when escalation itself already failed) — each time
the error text is appended to the error list of the state, and no exception
escapes `process_ticket` (the embedding is total in the outcomes). -/
theorem workflow_stage_isolation (t : CustomerTicket) (o : StageOutcomes) :
    (processTicket t o).workflow_status = "completed" ∧
    (processTicket t o).metadata_total_errors =
      some (processTicket t o).error_messages.length ∧
    (∀ e, o.classifyBody = .error e →
      (processTicket t o).classification =
        some { category := "general", priority := "medium", confidence := 0.3,
               reasoning := "Classification failed: " ++ e } ∧
      ("Classification failed: " ++ e) ∈ (processTicket t o).error_messages) ∧
    (∀ e, o.searchBody = .error e →
      (processTicket t o).knowledge_results = [] ∧
      ("Knowledge search failed: " ++ e) ∈ (processTicket t o).error_messages) ∧
    (∀ e, o.escalationBody = .error e →
      (processTicket t o).escalation_decision =
        some { should_escalate := true, reason := "Escalation check failed: " ++ e,
               escalation_type := some "technical", priority_level := "standard",
               confidence := 0.3 } ∧
      ("Escalation check failed: " ++ e) ∈ (processTicket t o).error_messages) ∧
    (∀ d e, o.escalationBody = .ok d → d.should_escalate = false →
      o.resolutionBody = .error e →
      (processTicket t o).resolution =
        some { ticket_id := some (pyOrStr t.id "unknown"),
               response := "I apologize, but I\x27m experiencing technical difficulties. A human agent will assist you shortly.",
               confidence := 0.1, knowledge_articles_used := some [],
               agent_type := "fallback" } ∧
      ("Resolution generation failed: " ++ e) ∈ (processTicket t o).error_messages) ∧
    (∀ d e, o.escalationBody = .ok d → d.should_escalate = true →
      o.escalateBody = .error e →
      (processTicket t o).resolution =
        some { ticket_id := some (pyOrStr t.id "unknown"),
               response := "Your request has been escalated to our specialist team. Someone will contact you shortly.",
               confidence := 0.8, knowledge_articles_used := some [],
               agent_type := "escalation_fallback" } ∧
      ("Escalation failed: " ++ e) ∈ (processTicket t o).error_messages) ∧
    (∀ e2 e, o.escalationBody = .error e2 → o.escalateBody = .error e →
      (processTicket t o).resolution =
        some { ticket_id := some (pyOrStr t.id "unknown"),
               response := "Your request has been escalated to our specialist team. Someone will contact you shortly.",
               confidence := 0.8, knowledge_articles_used := some [],
               agent_type := "escalation_fallback" } ∧
      ("Escalation failed: " ++ e) ∈ (processTicket t o).error_messages) := by
  obtain ⟨b1, b2, b3, b4, b5⟩ := o
  refine ⟨rfl, rfl, ?_, ?_, ?_, ?_, ?_, ?_⟩
  · rintro e rfl
    cases b2 <;> cases b3 <;> cases b4 <;> cases b5 <;>
      simp only [processTicket, classifyNode, searchKnowledgeNode, checkEscalationNode,
        generateResolutionNode, escalateTicketNode, finalizeNode, shouldEscalateBranch,
        initialWfState] <;>
      split <;> simp
  · rintro e rfl
    cases b1 <;> cases b3 <;> cases b4 <;> cases b5 <;>
      simp only [processTicket, classifyNode, searchKnowledgeNode, checkEscalationNode,
        generateResolutionNode, escalateTicketNode, finalizeNode, shouldEscalateBranch,
        initialWfState] <;>
      split <;> simp
  · rintro e rfl
    cases b1 <;> cases b2 <;> cases b4 <;> cases b5 <;>
      simp [processTicket, classifyNode, searchKnowledgeNode, checkEscalationNode,
        generateResolutionNode, escalateTicketNode, finalizeNode, shouldEscalateBranch,
        initialWfState]
  · rintro d e rfl hd rfl
    cases b1 <;> cases b2 <;> cases b5 <;>
      simp only [processTicket, classifyNode, searchKnowledgeNode, checkEscalationNode,
        generateResolutionNode, escalateTicketNode, finalizeNode, shouldEscalateBranch,
        initialWfState] <;>
      simp [hd]
  · rintro d e rfl hd rfl
    cases b1 <;> cases b2 <;> cases b4 <;>
      simp only [processTicket, classifyNode, searchKnowledgeNode, checkEscalationNode,
        generateResolutionNode, escalateTicketNode, finalizeNode, shouldEscalateBranch,
        initialWfState] <;>
      simp [hd]
  · rintro e2 e rfl rfl
    cases b1 <;> cases b2 <;> cases b4 <;>
      simp [processTicket, classifyNode, searchKnowledgeNode, checkEscalationNode,
        generateResolutionNode, escalateTicketNode, finalizeNode, shouldEscalateBranch,
        initialWfState]

/-- Witness for `workflow_stage_isolation`: a run whose five stage bodies all
fail still completes with every conservative default in place, and runs whose
escalation decision resolves normally still absorb resolution/escalation
failures. -/
theorem workflow_stage_isolation_witness :
    (processTicket { subject := "s", message := "m" }
      { classifyBody := .error "c", searchBody := .error "k",
        escalationBody := .error "x", resolutionBody := .error "r",
        escalateBody := .error "z" }).workflow_status = "completed" ∧
    (processTicket { subject := "s", message := "m" }
      { classifyBody := .error "c", searchBody := .error "k",
        escalationBody := .error "x", resolutionBody := .error "r",
        escalateBody := .error "z" }).classification =
      some { category := "general", priority := "medium", confidence := 0.3,
             reasoning := "Classification failed: c" } ∧
    ("Knowledge search failed: k") ∈ (processTicket { subject := "s", message := "m" }
      { classifyBody := .error "c", searchBody := .error "k",
        escalationBody := .error "x", resolutionBody := .error "r",
        escalateBody := .error "z" }).error_messages ∧
    (processTicket { subject := "s", message := "m" }
      { classifyBody := .error "c", searchBody := .error "k",
        escalationBody := .error "x", resolutionBody := .error "r",
        escalateBody := .error "z" }).resolution =
      some { ticket_id := some (pyOrStr (none : Option String) "unknown"),
             response := "Your request has been escalated to our specialist team. Someone will contact you shortly.",
             confidence := 0.8, knowledge_articles_used := some [],
             agent_type := "escalation_fallback" } ∧
    (processTicket { subject := "s", message := "m" }
      { classifyBody := .ok { category := "general", priority := "low",
                              confidence := 0.5, reasoning := "ok" },
        searchBody := .ok [],
        escalationBody := .ok { should_escalate := false, reason := "No escalation needed",
                                escalation_type := none, priority_level := "standard",
                                confidence := 0.5 },
        resolutionBody := .error "r", escalateBody := .ok
          { response := "done", confidence := 0.9, agent_type := "escalation" } }).resolution =
      some { ticket_id := some (pyOrStr (none : Option String) "unknown"),
             response := "I apologize, but I\x27m experiencing technical difficulties. A human agent will assist you shortly.",
             confidence := 0.1, knowledge_articles_used := some [],
             agent_type := "fallback" } := by
  have h1 := workflow_stage_isolation { subject := "s", message := "m" }
    { classifyBody := .error "c", searchBody := .error "k",
      escalationBody := .error "x", resolutionBody := .error "r",
      escalateBody := .error "z" }
  have h2 := workflow_stage_isolation { subject := "s", message := "m" }
    { classifyBody := .ok { category := "general", priority := "low",
                            confidence := 0.5, reasoning := "ok" },
      searchBody := .ok [],
      escalationBody := .ok { should_escalate := false, reason := "No escalation needed",
                              escalation_type := none, priority_level := "standard",
                              confidence := 0.5 },
      resolutionBody := .error "r", escalateBody := .ok
        { response := "done", confidence := 0.9, agent_type := "escalation" } }
  exact ⟨h1.1, (h1.2.2.1 "c" rfl).1, (h1.2.2.2.1 "k" rfl).2,
    (h1.2.2.2.2.2.2.2 "x" "z" rfl rfl).1,
    (h2.2.2.2.2.2.1 _ "r" rfl rfl rfl).1⟩

/-- C6: `process_batch` returns exactly one result state per input ticket, in
input order (the gathered outcome list is index-aligned with the tickets),
and never raises: an outcome that surfaced an exception despite the
orchestrator-level failure boundary is replaced, at its input position, by
the failed state carrying the exception text (status "failed", agent_type
"batch_error"), while every other outcome is passed through unchanged. -/
theorem process_batch_shape (tickets : List CustomerTicket)
    (runs : List (Except String WfState)) (hlen : runs.length = tickets.length) :
    (processBatch tickets runs).length = tickets.length ∧
    ∀ i (hi : i < tickets.length) (hri : i < runs.length)
        (hoi : i < (processBatch tickets runs).length),
      (∀ e, runs[i] = .error e →
        (processBatch tickets runs)[i] = batchErrorState tickets[i] e) ∧
      (∀ s, runs[i] = .ok s → (processBatch tickets runs)[i] = s) := by
  constructor
  · simp [processBatch, hlen]
  · intro i hi hri hoi
    have key : (processBatch tickets runs)[i] =
        match runs[i] with
        | .error e => batchErrorState tickets[i] e
        | .ok s => s := by
      simp only [processBatch, List.getElem_map, List.getElem_zip]
    constructor
    · intro e he
      rw [key, he]
    · intro s hs
      rw [key, hs]

/-- Witness for `process_batch_shape`: a two-ticket batch whose second run
raised is two results long, passes the first state through and substitutes
the failed state for the second ticket. -/
theorem process_batch_shape_witness :
    (processBatch
        [{ subject := "a", message := "x" }, { subject := "b", message := "y" }]
        [.ok { ticket := { subject := "a", message := "x" },
               workflow_status := "completed" },
         .error "boom"]).length = 2 ∧
    (processBatch
        [{ subject := "a", message := "x" }, { subject := "b", message := "y" }]
        [.ok { ticket := { subject := "a", message := "x" },
               workflow_status := "completed" },
         .error "boom"]).get ⟨1, by decide⟩ =
      batchErrorState { subject := "b", message := "y" } "boom" := by
  have h := process_batch_shape
    [{ subject := "a", message := "x" }, { subject := "b", message := "y" }]
    [.ok { ticket := { subject := "a", message := "x" },
           workflow_status := "completed" },
     .error "boom"] rfl
  exact ⟨h.1, (h.2 1 (by decide) (by decide) (by decide)).1 "boom" rfl⟩
